import Mathlib

/-!
Verification of the UmaNakama recognition and matching engine.

This file gives a shallow embedding of the stateful gating logic of
`src/ocr/reader.py` (`read_once`, `reset_portrait_gating`,
`trim_after_big_gap`), the event lookup and fuzzy matching of
`src/core/events.py` (`load_events`, `find_best_match`), and the portrait
template store of `src/services/portraits.py` (`detect_from_roi`,
`save_portrait`).  External collaborators (screen capture, Tesseract,
OpenCV correlation, the Qt picker dialog, the filesystem) are modelled as
explicit inputs: the OCR lines, the per-tick identifier result, the
clock, the human prompt response, the per-template correlation scores and
the file contents are parameters of the embedded functions.
-/

namespace UmaNakama

/-- Python `sub in s` substring containment on strings
(`"trainee" in category_line` and friends in `read_once`,
`any(s in event_line.lower() ...)` in `find_best_match`). -/
def strContains (s sub : String) : Bool :=
  decide (sub.data <:+: s.data)

/-- Python `s.lower()`: lowercase every character. -/
def strLower (s : String) : String :=
  String.mk (s.data.map Char.toLower)

/-- Python `s.lstrip()`: drop leading whitespace. -/
def trimLeftL (s : String) : String :=
  String.mk (s.data.dropWhile Char.isWhitespace)

/-- Python `s.rstrip()`: drop trailing whitespace. -/
def trimRightL (s : String) : String :=
  String.mk ((s.data.reverse.dropWhile Char.isWhitespace).reverse)

/-- Python `s.strip()`: drop leading and trailing whitespace. -/
def trimL (s : String) : String :=
  trimRightL (trimLeftL s)

/-- The space-like character class of `reader.py`:
`_SPACE_LIKE_CLASS` covers space, tab, U+00A0, U+1680, U+2000 to U+200A,
U+202F, U+205F and U+3000. -/
def isSpaceLike (c : Char) : Bool :=
  c = ' ' || c = '\t' || c = '\u00A0' || c = '\u1680' ||
  ('\u2000' ≤ c && c ≤ '\u200A') || c = '\u202F' || c = '\u205F' || c = '\u3000'

/-- Zero-width characters stripped by `trim_after_big_gap`
(U+200B and U+FEFF). -/
def isZeroWidth (c : Char) : Bool :=
  c = '\u200B' || c = '\uFEFF'

/-- Truncate at the first run of at least `minRun` space-like characters:
the effect of the regex substitution in `trim_after_big_gap`, which on a
single line (no newlines) removes the gap and everything after it. -/
def dropFromGap (minRun : Nat) : List Char → List Char
  | [] => []
  | c :: cs =>
    if isSpaceLike c && minRun ≤ ((c :: cs).takeWhile isSpaceLike).length then
      []
    else
      c :: dropFromGap minRun cs

/-- `trim_after_big_gap` from `src/ocr/reader.py`: strip zero-width
characters, remove everything from the first run of `min_run` or more
space-like characters to the end, then right-strip. -/
def trim_after_big_gap (s : String) (min_run : Nat) : String :=
  if s = "" then s
  else
    trimRightL (String.mk (dropFromGap min_run (s.data.filter (fun c => !isZeroWidth c))))

-- ---- portrait detection tuning (constants of src/ocr/reader.py) ----

/-- `PORTRAIT_MATCH_THRESHOLD = 0.70`. -/
def PORTRAIT_MATCH_THRESHOLD : ℚ := 0.70

/-- `PORTRAIT_REQUIRE_HITS = 2`. -/
def PORTRAIT_REQUIRE_HITS : Nat := 2

/-- `PORTRAIT_REQUIRE_MISSES = 2`. -/
def PORTRAIT_REQUIRE_MISSES : Nat := 2

/-- `PROMPT_COOLDOWN_SEC = 15.0`. -/
def PROMPT_COOLDOWN_SEC : ℚ := 15

/-- The module-level streak trackers of `src/ocr/reader.py`:
`_current_candidate`, `_candidate_hits`, `_consecutive_misses`,
`_last_key`, `_last_prompt_time`. -/
structure GateState where
  current_candidate : Option String
  hit_count : Nat
  miss_count : Nat
  last_key : String
  last_prompt_time : ℚ
deriving DecidableEq

/-- The initial values of the module-level trackers. -/
def initGate : GateState :=
  { current_candidate := none, hit_count := 0, miss_count := 0,
    last_key := "", last_prompt_time := 0 }

/-- `reset_portrait_gating` from `src/ocr/reader.py`: resets candidate,
hit and miss streaks and the last event key; `_last_prompt_time` is not
touched. -/
def reset_portrait_gating (st : GateState) : GateState :=
  { current_candidate := none, hit_count := 0, miss_count := 0,
    last_key := "", last_prompt_time := st.last_prompt_time }

/-- The per-tick inputs of the gating part of `read_once`, with the
external collaborators made explicit: `lines` is the normalized non-empty
OCR line list, `detect` the `(name, score)` pair returned by
`detect_from_roi`, `now` the value of `time.time()` on this tick, and
`promptResponse` what `prompt_character_from_worker` would return were the
prompt shown. -/
structure TickInput where
  lines : List String
  detect : Option String × ℚ
  now : ℚ
  promptResponse : Option String

/-- The observable outcome of one gating tick: the updated trackers, the
category decision (`none` means the tick hides the overlay and returns),
the `detected_char` value handed to `find_best_match`, and whether the
labeling prompt was shown on this tick. -/
structure TickResult where
  state : GateState
  category : Option String
  detected_char : Option String
  prompted : Bool
deriving DecidableEq

/-- The hit branch of `read_once` (identifier returned a truthy name
`n`): extend or restart the candidate streak; on reaching
`PORTRAIT_REQUIRE_HITS` confirm the candidate, zero the miss streak and
record the event key. -/
def hitStep (st : GateState) (event_key n : String) : GateState × Option String :=
  let cand := if st.current_candidate = some n then st.current_candidate else some n
  let hits := if st.current_candidate = some n then st.hit_count + 1 else 1
  if PORTRAIT_REQUIRE_HITS ≤ hits then
    ({ current_candidate := cand, hit_count := hits, miss_count := 0,
       last_key := event_key, last_prompt_time := st.last_prompt_time }, cand)
  else
    ({ current_candidate := cand, hit_count := hits, miss_count := st.miss_count,
       last_key := st.last_key, last_prompt_time := st.last_prompt_time }, none)

/-- The miss branch of `read_once` on a "Trainee Event" line: restart the
miss streak on a new event key, else extend it; when the streak reaches
`PORTRAIT_REQUIRE_MISSES` and the cooldown has elapsed, record the prompt
time and show the prompt; a truthy response becomes the detected
character, saves the portrait and clears candidate, hit and miss
streaks.  Returns (new state, detected character, prompt fired). -/
def missStep (st : GateState) (event_key : String) (now : ℚ)
    (promptResponse : Option String) : GateState × Option String × Bool :=
  let misses := if event_key ≠ st.last_key then 1 else st.miss_count + 1
  let lkey := if event_key ≠ st.last_key then event_key else st.last_key
  if PORTRAIT_REQUIRE_MISSES ≤ misses ∧ PROMPT_COOLDOWN_SEC < now - st.last_prompt_time then
    match promptResponse with
    | some sel =>
      if sel = "" then
        ({ current_candidate := st.current_candidate, hit_count := st.hit_count,
           miss_count := misses, last_key := lkey, last_prompt_time := now }, none, true)
      else
        ({ current_candidate := none, hit_count := 0, miss_count := 0,
           last_key := lkey, last_prompt_time := now }, some sel, true)
    | none =>
      ({ current_candidate := st.current_candidate, hit_count := st.hit_count,
         miss_count := misses, last_key := lkey, last_prompt_time := now }, none, true)
  else
    ({ current_candidate := st.current_candidate, hit_count := st.hit_count,
       miss_count := misses, last_key := lkey,
       last_prompt_time := st.last_prompt_time }, none, false)

/-- `lines[0]`, the OCR category line of the tick. -/
def line0 (inp : TickInput) : String :=
  inp.lines.getD 0 ""

/-- The category test of `read_once`: `"trainee" in category_line`
where `category_line = lines[0].lower()`. -/
def isTraineeCat (inp : TickInput) : Bool :=
  strContains (strLower (line0 inp)) "trainee"

/-- The category test of `read_once`: `"support" in category_line`. -/
def isSupportCat (inp : TickInput) : Bool :=
  strContains (strLower (line0 inp)) "support"

/-- The stricter header test of `read_once`:
`"trainee event" in lines[0].lower()`. -/
def isTraineeEventLine (inp : TickInput) : Bool :=
  strContains (strLower (line0 inp)) "trainee event"

/-- The event key computed by `read_once`: the literal prefix
`trainee|` followed by `event_line`, where
`event_line = trim_after_big_gap(lines[1], min_run=4)`. -/
def eventKeyOf (inp : TickInput) : String :=
  "trainee|" ++ trim_after_big_gap (inp.lines.getD 1 "") 4

/-- Dispatch of the miss path of `read_once`: count the miss (and maybe
prompt) only when the header line truly reads "Trainee Event"; otherwise
reset the gating. -/
def missOrReset (st : GateState) (event_key : String) (is_trainee_event_line : Bool)
    (inp : TickInput) : TickResult :=
  if is_trainee_event_line then
    let r := missStep st event_key inp.now inp.promptResponse
    { state := r.1, category := some "trainee", detected_char := r.2.1, prompted := r.2.2 }
  else
    { state := reset_portrait_gating st, category := some "trainee",
      detected_char := none, prompted := false }

/-- The gating portion of one `read_once` tick (source lines 150-228):
fewer than two OCR lines hides the overlay and leaves the trackers alone;
a category line containing "trainee" runs the hit/miss state machine; a
category line containing "support" resets the gating; any other category
line hides the overlay and returns.  Python's `if name:` truthiness on
the optional identifier name (falsy for `None` and for `""`) is embedded
by the explicit empty-string test. -/
def readOnceTick (st : GateState) (inp : TickInput) : TickResult :=
  if inp.lines.length < 2 then
    { state := st, category := none, detected_char := none, prompted := false }
  else if isTraineeCat inp then
    match inp.detect.1 with
    | some n =>
      if n = "" then
        missOrReset st (eventKeyOf inp) (isTraineeEventLine inp) inp
      else
        let r := hitStep st (eventKeyOf inp) n
        { state := r.1, category := some "trainee", detected_char := r.2, prompted := false }
    | none => missOrReset st (eventKeyOf inp) (isTraineeEventLine inp) inp
  else if isSupportCat inp then
    { state := reset_portrait_gating st, category := some "support",
      detected_char := none, prompted := false }
  else
    { state := st, category := none, detected_char := none, prompted := false }

/-- Run a sequence of gating ticks from a starting state. -/
def runGate : GateState → List TickInput → GateState
  | st, [] => st
  | st, i :: is => runGate (readOnceTick st i).state is

/-- How many ticks of a run show the labeling prompt. -/
def promptCount : GateState → List TickInput → Nat
  | _, [] => 0
  | st, i :: is =>
    (if (readOnceTick st i).prompted then 1 else 0) + promptCount (readOnceTick st i).state is

-- ---- branch equations for readOnceTick ----

theorem readOnceTick_short (st : GateState) (inp : TickInput)
    (h : inp.lines.length < 2) :
    readOnceTick st inp =
      { state := st, category := none, detected_char := none, prompted := false } := by
  simp [readOnceTick, h]

theorem readOnceTick_hit (st : GateState) (inp : TickInput) (n : String)
    (hlen : ¬ inp.lines.length < 2) (htr : isTraineeCat inp = true)
    (hdet : inp.detect.1 = some n) (hn : n ≠ "") :
    readOnceTick st inp =
      { state := (hitStep st (eventKeyOf inp) n).1, category := some "trainee",
        detected_char := (hitStep st (eventKeyOf inp) n).2, prompted := false } := by
  simp [readOnceTick, hlen, htr, hdet, hn]

theorem readOnceTick_miss (st : GateState) (inp : TickInput)
    (hlen : ¬ inp.lines.length < 2) (htr : isTraineeCat inp = true)
    (hdet : inp.detect.1 = none ∨ inp.detect.1 = some "") :
    readOnceTick st inp = missOrReset st (eventKeyOf inp) (isTraineeEventLine inp) inp := by
  rcases hdet with h | h <;> simp [readOnceTick, hlen, htr, h]

theorem readOnceTick_support (st : GateState) (inp : TickInput)
    (hlen : ¬ inp.lines.length < 2) (htr : isTraineeCat inp = false)
    (hsup : isSupportCat inp = true) :
    readOnceTick st inp =
      { state := reset_portrait_gating st, category := some "support",
        detected_char := none, prompted := false } := by
  simp [readOnceTick, hlen, htr, hsup]

theorem readOnceTick_unknown (st : GateState) (inp : TickInput)
    (hlen : ¬ inp.lines.length < 2) (htr : isTraineeCat inp = false)
    (hsup : isSupportCat inp = false) :
    readOnceTick st inp =
      { state := st, category := none, detected_char := none, prompted := false } := by
  simp [readOnceTick, hlen, htr, hsup]

theorem missOrReset_reset (st : GateState) (k : String) (inp : TickInput)
    (h : isTraineeEventLine inp = false) :
    missOrReset st k (isTraineeEventLine inp) inp =
      { state := reset_portrait_gating st, category := some "trainee",
        detected_char := none, prompted := false } := by
  simp [missOrReset, h]

theorem missOrReset_miss (st : GateState) (k : String) (inp : TickInput)
    (h : isTraineeEventLine inp = true) :
    missOrReset st k (isTraineeEventLine inp) inp =
      { state := (missStep st k inp.now inp.promptResponse).1, category := some "trainee",
        detected_char := (missStep st k inp.now inp.promptResponse).2.1,
        prompted := (missStep st k inp.now inp.promptResponse).2.2 } := by
  simp [missOrReset, h]

-- ---- properties of the hit branch ----

theorem hitStep_detect (st : GateState) (k n : String) (c : String)
    (h : (hitStep st k n).2 = some c) :
    PORTRAIT_REQUIRE_HITS ≤ (hitStep st k n).1.hit_count ∧
    (hitStep st k n).1.current_candidate = some c ∧
    (hitStep st k n).1.miss_count = 0 := by
  unfold hitStep at *
  by_cases hc : st.current_candidate = some n <;>
    simp only [hc, if_pos, if_neg, reduceIte] at h ⊢ <;> split at h <;>
    simp_all

theorem hitStep_restart (st : GateState) (k n : String)
    (h : st.current_candidate ≠ some n) :
    hitStep st k n =
      ({ current_candidate := some n, hit_count := 1, miss_count := st.miss_count,
         last_key := st.last_key, last_prompt_time := st.last_prompt_time }, none) := by
  simp [hitStep, h, PORTRAIT_REQUIRE_HITS]

theorem hitStep_extend (st : GateState) (k n : String)
    (h : st.current_candidate = some n) :
    (hitStep st k n).1.hit_count = st.hit_count + 1 := by
  unfold hitStep
  simp only [h, reduceIte]
  split <;> rfl

-- ---- properties of the miss branch ----

theorem missStep_newKey (st : GateState) (k : String) (now : ℚ)
    (resp : Option String) (h : k ≠ st.last_key) :
    missStep st k now resp =
      ({ current_candidate := st.current_candidate, hit_count := st.hit_count,
         miss_count := 1, last_key := k, last_prompt_time := st.last_prompt_time },
       none, false) := by
  simp [missStep, h, PORTRAIT_REQUIRE_MISSES]

theorem missStep_fire (st : GateState) (k : String) (now : ℚ) (resp : Option String)
    (h : (missStep st k now resp).2.2 = true) :
    k = st.last_key ∧ PORTRAIT_REQUIRE_MISSES ≤ st.miss_count + 1 ∧
    PROMPT_COOLDOWN_SEC < now - st.last_prompt_time ∧
    (missStep st k now resp).1.last_prompt_time = now := by
  by_cases hk : k = st.last_key
  · by_cases hcond : PORTRAIT_REQUIRE_MISSES ≤ st.miss_count + 1 ∧
        PROMPT_COOLDOWN_SEC < now - st.last_prompt_time
    · refine ⟨hk, hcond.1, hcond.2, ?_⟩
      rcases resp with _ | sel
      · simp [missStep, hk, hcond]
      · by_cases hs : sel = "" <;> simp [missStep, hk, hcond, hs]
    · exfalso
      simp [missStep, hk, hcond] at h
  · rw [missStep_newKey st k now resp hk] at h
    simp at h

theorem missStep_noFire_time (st : GateState) (k : String) (now : ℚ)
    (resp : Option String) (h : (missStep st k now resp).2.2 = false) :
    (missStep st k now resp).1.last_prompt_time = st.last_prompt_time := by
  by_cases hk : k = st.last_key
  · by_cases hcond : PORTRAIT_REQUIRE_MISSES ≤ st.miss_count + 1 ∧
        PROMPT_COOLDOWN_SEC < now - st.last_prompt_time
    · exfalso
      rcases resp with _ | sel
      · simp [missStep, hk, hcond] at h
      · by_cases hs : sel = "" <;> simp [missStep, hk, hcond, hs] at h
    · simp [missStep, hk, hcond]
  · simp [missStep_newKey st k now resp hk]

theorem missStep_detect (st : GateState) (k : String) (now : ℚ)
    (resp : Option String) (c : String)
    (h : (missStep st k now resp).2.1 = some c) :
    (missStep st k now resp).2.2 = true ∧ resp = some c := by
  by_cases hk : k = st.last_key
  · by_cases hcond : PORTRAIT_REQUIRE_MISSES ≤ st.miss_count + 1 ∧
        PROMPT_COOLDOWN_SEC < now - st.last_prompt_time
    · rcases resp with _ | sel
      · simp [missStep, hk, hcond] at h
      · by_cases hs : sel = ""
        · simp [missStep, hk, hcond, hs] at h
        · have hsc : sel = c := by simp [missStep, hk, hcond, hs] at h; exact h
          subst hsc
          simp [missStep, hk, hcond, hs]
    · simp [missStep, hk, hcond] at h
  · rw [missStep_newKey st k now resp hk] at h
    simp at h

theorem missStep_label (st : GateState) (k : String) (now : ℚ) (sel : String)
    (hk : k = st.last_key) (hm : PORTRAIT_REQUIRE_MISSES ≤ st.miss_count + 1)
    (hcool : PROMPT_COOLDOWN_SEC < now - st.last_prompt_time) (hsel : sel ≠ "") :
    missStep st k now (some sel) =
      ({ current_candidate := none, hit_count := 0, miss_count := 0,
         last_key := st.last_key, last_prompt_time := now }, some sel, true) := by
  simp [missStep, hk, hm, hcool, hsel]

theorem missStep_fire_none (st : GateState) (k : String) (now : ℚ)
    (hk : k = st.last_key) (hm : PORTRAIT_REQUIRE_MISSES ≤ st.miss_count + 1)
    (hcool : PROMPT_COOLDOWN_SEC < now - st.last_prompt_time) :
    missStep st k now none =
      ({ current_candidate := st.current_candidate, hit_count := st.hit_count,
         miss_count := st.miss_count + 1, last_key := st.last_key,
         last_prompt_time := now }, none, true) := by
  simp [missStep, hk, hm, hcool]

theorem hitStep_time (st : GateState) (k n : String) :
    (hitStep st k n).1.last_prompt_time = st.last_prompt_time := by
  unfold hitStep
  split <;> dsimp only <;> split <;> rfl

theorem tick_miss_prompt_aux (st : GateState) (inp : TickInput)
    (hlen : ¬ inp.lines.length < 2) (htr : isTraineeCat inp = true)
    (hdet : inp.detect.1 = none ∨ inp.detect.1 = some "")
    (h : (readOnceTick st inp).prompted = true) :
    eventKeyOf inp = st.last_key ∧ PORTRAIT_REQUIRE_MISSES ≤ st.miss_count + 1 ∧
    PROMPT_COOLDOWN_SEC < inp.now - st.last_prompt_time ∧
    (readOnceTick st inp).state.last_prompt_time = inp.now := by
  rw [readOnceTick_miss st inp hlen htr hdet] at h ⊢
  by_cases htel : isTraineeEventLine inp = true
  · rw [missOrReset_miss st (eventKeyOf inp) inp htel] at h ⊢
    have hf := missStep_fire st (eventKeyOf inp) inp.now inp.promptResponse h
    exact ⟨hf.1, hf.2.1, hf.2.2.1, hf.2.2.2⟩
  · have htel' : isTraineeEventLine inp = false := by simpa using htel
    rw [missOrReset_reset st (eventKeyOf inp) inp htel'] at h
    simp at h

/-- A tick that fires the prompt does so only on a repeated miss for the
same event key, after the cooldown, and records the prompt time. -/
theorem tick_prompted_spec (st : GateState) (inp : TickInput)
    (h : (readOnceTick st inp).prompted = true) :
    eventKeyOf inp = st.last_key ∧ PORTRAIT_REQUIRE_MISSES ≤ st.miss_count + 1 ∧
    PROMPT_COOLDOWN_SEC < inp.now - st.last_prompt_time ∧
    (readOnceTick st inp).state.last_prompt_time = inp.now := by
  by_cases hlen : inp.lines.length < 2
  · rw [readOnceTick_short st inp hlen] at h
    simp at h
  · by_cases htr : isTraineeCat inp = true
    · cases hdet : inp.detect.1 with
      | some n =>
        by_cases hn : n = ""
        · subst hn
          exact tick_miss_prompt_aux st inp hlen htr (Or.inr hdet) h
        · rw [readOnceTick_hit st inp n hlen htr hdet hn] at h
          simp at h
      | none => exact tick_miss_prompt_aux st inp hlen htr (Or.inl hdet) h
    · have htr' : isTraineeCat inp = false := by simpa using htr
      by_cases hsup : isSupportCat inp = true
      · rw [readOnceTick_support st inp hlen htr' hsup] at h
        simp at h
      · have hsup' : isSupportCat inp = false := by simpa using hsup
        rw [readOnceTick_unknown st inp hlen htr' hsup'] at h
        simp at h

theorem tick_miss_time_aux (st : GateState) (inp : TickInput)
    (hlen : ¬ inp.lines.length < 2) (htr : isTraineeCat inp = true)
    (hdet : inp.detect.1 = none ∨ inp.detect.1 = some "")
    (h : (readOnceTick st inp).prompted = false) :
    (readOnceTick st inp).state.last_prompt_time = st.last_prompt_time := by
  rw [readOnceTick_miss st inp hlen htr hdet] at h ⊢
  by_cases htel : isTraineeEventLine inp = true
  · rw [missOrReset_miss st (eventKeyOf inp) inp htel] at h ⊢
    exact missStep_noFire_time st (eventKeyOf inp) inp.now inp.promptResponse h
  · have htel' : isTraineeEventLine inp = false := by simpa using htel
    rw [missOrReset_reset st (eventKeyOf inp) inp htel']
    rfl

/-- A tick that does not fire the prompt leaves the recorded prompt time
unchanged. -/
theorem tick_unprompted_time (st : GateState) (inp : TickInput)
    (h : (readOnceTick st inp).prompted = false) :
    (readOnceTick st inp).state.last_prompt_time = st.last_prompt_time := by
  by_cases hlen : inp.lines.length < 2
  · rw [readOnceTick_short st inp hlen]
  · by_cases htr : isTraineeCat inp = true
    · cases hdet : inp.detect.1 with
      | some n =>
        by_cases hn : n = ""
        · subst hn
          exact tick_miss_time_aux st inp hlen htr (Or.inr hdet) h
        · rw [readOnceTick_hit st inp n hlen htr hdet hn]
          exact hitStep_time st (eventKeyOf inp) n
      | none => exact tick_miss_time_aux st inp hlen htr (Or.inl hdet) h
    · have htr' : isTraineeCat inp = false := by simpa using htr
      by_cases hsup : isSupportCat inp = true
      · rw [readOnceTick_support st inp hlen htr' hsup]
        rfl
      · have hsup' : isSupportCat inp = false := by simpa using hsup
        rw [readOnceTick_unknown st inp hlen htr' hsup']

/-- A run with no prompt leaves the recorded prompt time unchanged. -/
theorem runGate_no_prompt_time (l : List TickInput) :
    ∀ st : GateState, promptCount st l = 0 →
    (runGate st l).last_prompt_time = st.last_prompt_time := by
  induction l with
  | nil => intro st _; rfl
  | cons i is ih =>
    intro st h
    have h0 : (readOnceTick st i).prompted = false := by
      by_cases hp : (readOnceTick st i).prompted = true
      · rw [promptCount, hp] at h
        simp at h
      · exact Bool.not_eq_true _ ▸ hp
    have h1 : promptCount (readOnceTick st i).state is = 0 := by
      rw [promptCount, h0] at h
      simpa using h
    rw [runGate, ih _ h1, tick_unprompted_time st i h0]

-- ---- src/core/events.py ----

/-- An event's option map: option label to effect text, insertion
ordered (a Python dict). -/
abbrev OptionMap := List (String × String)

/-- A category's or a character's event map: event name to option map,
insertion ordered (a Python dict). -/
abbrev EventMap := List (String × OptionMap)

/-- The outcome of opening and JSON-parsing one file, the two failure
modes `load_events` catches: the file cannot be read (missing or
unreadable) or its contents are not valid JSON. -/
inductive FileOutcome where
  | ok (data : EventMap)
  | ioError (msg : String)
  | parseError (msg : String)
deriving DecidableEq

/-- `load_events` from `src/core/events.py`: read
`base_dir/category_events.json` and parse it; the `try`/`except` around
the read and parse turns every failure into the empty map (and a log
line), so the caller never sees an exception.  The filesystem is the
explicit argument `fs`, mapping a path to its read/parse outcome. -/
def load_events (category : String) (base_dir : String)
    (fs : String → FileOutcome) : EventMap :=
  match fs (base_dir ++ "/" ++ category ++ "_events.json") with
  | .ok d => d
  | .ioError _ => []
  | .parseError _ => []

/-- One step of the best-candidate scan used to model
`difflib.get_close_matches(..., n=1, ...)`: keep the current best unless
the new candidate scores strictly higher. -/
def pickBetter (score : String → ℚ) (best : Option String) (c : String) : Option String :=
  match best with
  | none => some c
  | some b => if score b < score c then some c else some b

/-- Contract-level model of the external
`difflib.get_close_matches(word, possibilities, n=1, cutoff)`: among the
possibilities whose similarity ratio to `word` is at least `cutoff`,
return one with the maximal ratio, or `none` when no possibility
qualifies.  The similarity ratio itself (difflib's
`SequenceMatcher.ratio`) is the explicit argument `ratio`; ties keep the
earlier possibility (the claims below do not depend on tie order). -/
def get_close_matches1 (word : String) (possibilities : List String)
    (cutoff : ℚ) (ratio : String → String → ℚ) : Option String :=
  (possibilities.filter (fun x => decide (cutoff ≤ ratio word x))).foldl
    (pickBetter (ratio word)) none

/-- The candidate-map selection of `find_best_match`
(`src/core/events.py` lines 129-141): for the trainee category with a
truthy character name, try `by_char.get(name) or by_char.get(name.strip())`
(Python `or`: the first operand is kept only when it is a non-empty
dict); when that chain yields `None`, or the category is not trainee, or
no truthy name is given, use the global per-category map.  `by_char` is
the loaded per-character index (`load_events_by_char()`), `glob` the
loaded global map per category (`load_events`). -/
def selectCandidates (category : String) (character_name : Option String)
    (by_char : String → Option EventMap) (glob : String → EventMap) : EventMap :=
  if category = "trainee" then
    let scopedMap : Option EventMap :=
      match character_name with
      | some cn =>
        if cn = "" then none
        else
          match by_char cn with
          | some m => if m = [] then by_char (trimL cn) else some m
          | none => by_char (trimL cn)
      | none => none
    match scopedMap with
    | some m => m
    | none => glob "trainee"
  else
    glob category

/-- The matching tail of `find_best_match` (`src/core/events.py` lines
143-157): an empty candidate map yields no match; otherwise the cutoff is
the caller's confidence, raised to at least 0.95 when the event line
contains an ambiguous phrase ("inspiration" or "summer camp",
case-insensitive); the single close match, when one clears the cutoff,
is returned with its option map. -/
def matchAgainst (event_line : String) (candidates_map : EventMap)
    (confidence : ℚ) (ratio : String → String → ℚ) :
    Option String × Option OptionMap :=
  if candidates_map = [] then (none, none)
  else
    let candidates := candidates_map.map Prod.fst
    let cutoff :=
      if strContains (strLower event_line) "inspiration" ||
         strContains (strLower event_line) "summer camp" then
        max confidence (0.95 : ℚ)
      else confidence
    match get_close_matches1 event_line candidates cutoff ratio with
    | some name => (some name, candidates_map.lookup name)
    | none => (none, none)

/-- `find_best_match` from `src/core/events.py`: reject event lines
shorter than 4 characters, build the candidate map (per-character scoped
for trainee when available, else global), then fuzzy-match the event
line against the candidate names.  The loaded catalogs and the
similarity ratio are explicit arguments. -/
def find_best_match (event_line : String) (category : String)
    (character_name : Option String) (confidence : ℚ)
    (by_char : String → Option EventMap) (glob : String → EventMap)
    (ratio : String → String → ℚ) : Option String × Option OptionMap :=
  if event_line.length < 4 then (none, none)
  else matchAgainst event_line (selectCandidates category character_name by_char glob)
    confidence ratio

-- ---- properties of the close-match scan ----

theorem pickBetter_eq (score : String → ℚ) (acc : Option String) (x c : String)
    (h : pickBetter score acc x = some c) : c = x ∨ acc = some c := by
  cases acc with
  | none => exact Or.inl (Option.some_injective _ h).symm
  | some b =>
    by_cases hlt : score b < score x
    · have hx : x = c := by simpa [pickBetter, hlt] using h
      exact Or.inl hx.symm
    · have hb : b = c := by simpa [pickBetter, hlt] using h
      exact Or.inr (by rw [hb])

theorem pickBetter_foldl_mem (score : String → ℚ) (l : List String) :
    ∀ (acc : Option String) (c : String),
      l.foldl (pickBetter score) acc = some c → c ∈ l ∨ acc = some c := by
  induction l with
  | nil =>
    intro acc c h
    exact Or.inr h
  | cons x xs ih =>
    intro acc c h
    rcases ih (pickBetter score acc x) c h with hmem | hacc
    · exact Or.inl (List.mem_cons_of_mem _ hmem)
    · rcases pickBetter_eq score acc x c hacc with hcx | hac
      · exact Or.inl (hcx ▸ List.mem_cons_self x xs)
      · exact Or.inr hac

/-- Whatever `get_close_matches1` returns cleared the cutoff: this is the
contract the selected event name inherits. -/
theorem gcm_cutoff (word : String) (possibilities : List String)
    (cutoff : ℚ) (ratio : String → String → ℚ) (c : String)
    (h : get_close_matches1 word possibilities cutoff ratio = some c) :
    cutoff ≤ ratio word c ∧ c ∈ possibilities := by
  unfold get_close_matches1 at h
  rcases pickBetter_foldl_mem (ratio word) _ none c h with hmem | habs
  · have hf := List.mem_filter.mp hmem
    exact ⟨of_decide_eq_true hf.2, hf.1⟩
  · cases habs

-- ---- src/services/portraits.py ----

/-- The execution record of one `detect_from_roi` call: the returned
`(name, score)` pair, how many times `load_portraits()` was invoked to
refresh the cache, and how many templates were scored by the
correlation loop. -/
structure DetectRun where
  name : Option String
  score : ℚ
  reloads : Nat
  scored : Nat
deriving DecidableEq

/-- The template-scoring loop of `detect_from_roi` (`for name, templ in
templates.items()`): track the best (strictly greater) correlation score
seen so far, starting from `best_name = None`, `best_score = -1.0`.  The
per-template maximum correlation (OpenCV `matchTemplate` +
`minMaxLoc` on the equalized, possibly upscaled ROI) is the explicit
argument `score`. -/
def bestTemplate (templates : List String) (score : String → ℚ) :
    Option String × ℚ :=
  templates.foldl
    (fun acc n => if acc.2 < score n then (some n, score n) else acc)
    (none, -1)

/-- `detect_from_roi` from `src/services/portraits.py`: copy the cache;
if it is empty, `load_portraits()` once (refresh from disk) and copy
again; if still empty return no match with score 0.0; otherwise score
every template and return the best name when its score clears
`min_score`, else no name with the best score.  Templates are
represented by their names, `cache` is the in-memory template cache,
`disk` what a reload from disk would populate it with, and `score` gives
each template's correlation against the ROI. -/
def detect_from_roi (cache disk : List String) (score : String → ℚ)
    (min_score : ℚ) : DetectRun :=
  let templates := if cache = [] then disk else cache
  let reloads := if cache = [] then 1 else 0
  if templates = [] then
    { name := none, score := 0, reloads := reloads, scored := 0 }
  else
    let best := bestTemplate templates score
    if min_score ≤ best.2 then
      { name := best.1, score := best.2, reloads := reloads,
        scored := templates.length }
    else
      { name := none, score := best.2, reloads := reloads,
        scored := templates.length }

/-- The forbidden filename characters removed by `save_portrait`:
backslash, slash, colon, star, question mark, double quote, angle
brackets and pipe. -/
def forbiddenChars : List Char := "\\/:*?\"<>|".data

/-- The filename sanitization of `save_portrait`:
strip the name, drop every forbidden character, strip again. -/
def sanitizeName (name : String) : String :=
  trimL (String.mk ((trimL name).data.filter (fun c => !forbiddenChars.contains c)))

/-- The outcome of one `save_portrait` call: the returned path (or
`None`), the in-memory template cache and the on-disk files after the
call.  `α` is the image type; the cache holds the grayscale conversion
of the saved image, the disk the PNG bytes at the full path. -/
structure SaveRun (α : Type) where
  path : Option String
  cache : List (String × α)
  disk : List (String × α)
deriving DecidableEq

/-- `save_portrait` from `src/services/portraits.py`: sanitize the name;
an empty sanitized name returns `None` and changes nothing; otherwise
save the image as `portrait_dir/safe.png` and insert the grayscale
template into the cache under the key `safe` (`_add_template`).  The
grayscale conversion (`cv2.cvtColor`) is the explicit argument `gray`;
cache and disk are passed and returned explicitly. -/
def save_portrait {α : Type} (name : String) (img : α) (portrait_dir : String)
    (gray : α → α) (cache disk : List (String × α)) : SaveRun α :=
  let safe := sanitizeName name
  if safe = "" then
    { path := none, cache := cache, disk := disk }
  else
    let path := portrait_dir ++ "/" ++ safe ++ ".png"
    { path := some path,
      cache := (safe, gray img) :: cache,
      disk := (path, img) :: disk }

-- ---- claim C1 ----

theorem tick_miss_detected_prompted (st : GateState) (inp : TickInput)
    (hlen : ¬ inp.lines.length < 2) (htr : isTraineeCat inp = true)
    (hdet : inp.detect.1 = none ∨ inp.detect.1 = some "") (c : String)
    (hd : (readOnceTick st inp).detected_char = some c) :
    (readOnceTick st inp).prompted = true ∧ inp.promptResponse = some c := by
  rw [readOnceTick_miss st inp hlen htr hdet] at hd ⊢
  by_cases htel : isTraineeEventLine inp = true
  · rw [missOrReset_miss st (eventKeyOf inp) inp htel] at hd ⊢
    exact missStep_detect st (eventKeyOf inp) inp.now inp.promptResponse c hd
  · have htel' : isTraineeEventLine inp = false := by simpa using htel
    rw [missOrReset_reset st (eventKeyOf inp) inp htel'] at hd
    simp at hd

/-- The first concrete tick of the C1 scenario: the identifier
returns "Beta" on a trainee-event tick. -/
def tickBeta : TickInput :=
  { lines := ["Trainee Event", "SomeEvent"], detect := (some "Beta", 0.8),
    now := 0, promptResponse := none }

/-- The second concrete tick of the C1 scenario: the identifier
returns "Gamma" on the same trainee-event tick. -/
def tickGamma : TickInput :=
  { lines := ["Trainee Event", "SomeEvent"], detect := (some "Gamma", 0.8),
    now := 0, promptResponse := none }

/-- C1: a character is confirmed on a tick (detected without a prompt)
only with a hit streak of at least PORTRAIT_REQUIRE_HITS = 2 for that
candidate; a hit on a name different from the current candidate restarts
the streak at 1 and confirms nothing; and the concrete scenario — two
consecutive ticks returning "Beta" then "Gamma" from the initial state —
leaves the confirmed character `none` after both ticks. -/
theorem C1_confirm_requires_hit_streak :
    (∀ (st : GateState) (inp : TickInput) (c : String),
      (readOnceTick st inp).prompted = false →
      (readOnceTick st inp).detected_char = some c →
      PORTRAIT_REQUIRE_HITS ≤ (readOnceTick st inp).state.hit_count ∧
      (readOnceTick st inp).state.current_candidate = some c) ∧
    (∀ (st : GateState) (inp : TickInput) (n : String),
      ¬ inp.lines.length < 2 → isTraineeCat inp = true →
      inp.detect.1 = some n → n ≠ "" → st.current_candidate ≠ some n →
      (readOnceTick st inp).state.hit_count = 1 ∧
      (readOnceTick st inp).detected_char = none) ∧
    ((readOnceTick initGate tickBeta).detected_char = none ∧
      (readOnceTick (readOnceTick initGate tickBeta).state tickGamma).detected_char = none) := by
  refine ⟨?_, ?_, ?_, ?_⟩
  · intro st inp c hp hd
    by_cases hlen : inp.lines.length < 2
    · rw [readOnceTick_short st inp hlen] at hd
      simp at hd
    · by_cases htr : isTraineeCat inp = true
      · cases hdet : inp.detect.1 with
        | some n =>
          by_cases hn : n = ""
          · subst hn
            rw [(tick_miss_detected_prompted st inp hlen htr (Or.inr hdet) c hd).1] at hp
            simp at hp
          · rw [readOnceTick_hit st inp n hlen htr hdet hn] at hd ⊢
            have h3 := hitStep_detect st (eventKeyOf inp) n c hd
            exact ⟨h3.1, h3.2.1⟩
        | none =>
          rw [(tick_miss_detected_prompted st inp hlen htr (Or.inl hdet) c hd).1] at hp
          simp at hp
      · have htr' : isTraineeCat inp = false := by simpa using htr
        by_cases hsup : isSupportCat inp = true
        · rw [readOnceTick_support st inp hlen htr' hsup] at hd
          simp at hd
        · have hsup' : isSupportCat inp = false := by simpa using hsup
          rw [readOnceTick_unknown st inp hlen htr' hsup'] at hd
          simp at hd
  · intro st inp n hlen htr hdet hn hcand
    rw [readOnceTick_hit st inp n hlen htr hdet hn,
      hitStep_restart st (eventKeyOf inp) n hcand]
    exact ⟨rfl, rfl⟩
  · decide
  · decide

/-- A state one "Beta" hit short of confirmation. -/
def gateBeta1 : GateState :=
  { current_candidate := some "Beta", hit_count := 1, miss_count := 0,
    last_key := "", last_prompt_time := 0 }

/-- Witness for C1: a second consecutive "Beta" hit confirms with a
streak of 2, and a fresh "Gamma" hit restarts the streak at 1 with no
confirmation. -/
theorem C1_confirm_requires_hit_streak_witness :
    (PORTRAIT_REQUIRE_HITS ≤ (readOnceTick gateBeta1 tickBeta).state.hit_count ∧
      (readOnceTick gateBeta1 tickBeta).state.current_candidate = some "Beta") ∧
    ((readOnceTick initGate tickGamma).state.hit_count = 1 ∧
      (readOnceTick initGate tickGamma).detected_char = none) :=
  ⟨C1_confirm_requires_hit_streak.1 gateBeta1 tickBeta "Beta" (by decide) (by decide),
   C1_confirm_requires_hit_streak.2.1 initGate tickGamma "Gamma" (by decide) (by decide) rfl
     (by decide) (by decide)⟩

-- ---- claim C2 ----

/-- C2: the prompt fires only on a repeated miss for the same event key
(a miss on a new key restarts the streak at 1 and never prompts), only
after the cooldown has elapsed, and it records the prompt time; over any
run, two consecutive prompt firings are separated by more than
PROMPT_COOLDOWN_SEC. -/
theorem C2_miss_gating_and_cooldown :
    (∀ (st : GateState) (inp : TickInput),
      (readOnceTick st inp).prompted = true →
      eventKeyOf inp = st.last_key ∧ PORTRAIT_REQUIRE_MISSES ≤ st.miss_count + 1 ∧
      PROMPT_COOLDOWN_SEC < inp.now - st.last_prompt_time ∧
      (readOnceTick st inp).state.last_prompt_time = inp.now) ∧
    (∀ (st : GateState) (inp : TickInput),
      ¬ inp.lines.length < 2 → isTraineeCat inp = true →
      (inp.detect.1 = none ∨ inp.detect.1 = some "") →
      isTraineeEventLine inp = true → eventKeyOf inp ≠ st.last_key →
      (readOnceTick st inp).state.miss_count = 1 ∧
      (readOnceTick st inp).prompted = false) ∧
    (∀ (st : GateState) (i0 : TickInput) (mid : List TickInput) (i1 : TickInput),
      (readOnceTick st i0).prompted = true →
      promptCount (readOnceTick st i0).state mid = 0 →
      (readOnceTick (runGate (readOnceTick st i0).state mid) i1).prompted = true →
      PROMPT_COOLDOWN_SEC < i1.now - i0.now) := by
  refine ⟨tick_prompted_spec, ?_, ?_⟩
  · intro st inp hlen htr hdet htel hkey
    rw [readOnceTick_miss st inp hlen htr hdet,
      missOrReset_miss st (eventKeyOf inp) inp htel,
      missStep_newKey st (eventKeyOf inp) inp.now inp.promptResponse hkey]
    exact ⟨rfl, rfl⟩
  · intro st i0 mid i1 h0 hmid h1
    have e0 := (tick_prompted_spec st i0 h0).2.2.2
    have e1 := runGate_no_prompt_time mid (readOnceTick st i0).state hmid
    have f1 := (tick_prompted_spec (runGate (readOnceTick st i0).state mid) i1 h1).2.2.1
    rw [e1, e0] at f1
    exact f1

/-- A state that has already seen one miss on the key of event "EventX". -/
def gateMiss1 : GateState :=
  { current_candidate := none, hit_count := 0, miss_count := 1,
    last_key := "trainee|EventX", last_prompt_time := 0 }

/-- The state after the prompt fired (unanswered) at time 20 on the
"EventX" key. -/
def gateMiss2 : GateState :=
  { current_candidate := none, hit_count := 0, miss_count := 2,
    last_key := "trainee|EventX", last_prompt_time := 20 }

/-- The state after a second prompt fired (unanswered) at time 40 on the
"EventX" key. -/
def gateMiss3 : GateState :=
  { current_candidate := none, hit_count := 0, miss_count := 3,
    last_key := "trainee|EventX", last_prompt_time := 40 }

/-- A trainee-event miss tick for event "EventX" at time `t`, with no
prompt response. -/
def tickMissX (t : ℚ) : TickInput :=
  { lines := ["Trainee Event", "EventX"], detect := (none, 0), now := t,
    promptResponse := none }

/-- Witness for C2: a second miss on the same key at time 20 fires the
prompt and records the time; a first miss on a fresh key yields streak 1
and no prompt; and a second firing at time 40 is more than the cooldown
after the first. -/
theorem C2_miss_gating_and_cooldown_witness :
    (eventKeyOf (tickMissX 20) = gateMiss1.last_key ∧
      PORTRAIT_REQUIRE_MISSES ≤ gateMiss1.miss_count + 1 ∧
      PROMPT_COOLDOWN_SEC < (tickMissX 20).now - gateMiss1.last_prompt_time ∧
      (readOnceTick gateMiss1 (tickMissX 20)).state.last_prompt_time = (tickMissX 20).now) ∧
    ((readOnceTick initGate (tickMissX 0)).state.miss_count = 1 ∧
      (readOnceTick initGate (tickMissX 0)).prompted = false) ∧
    PROMPT_COOLDOWN_SEC < (tickMissX 40).now - (tickMissX 20).now := by
  have hkey : eventKeyOf (tickMissX 20) = "trainee|EventX" := by decide
  have h20 : readOnceTick gateMiss1 (tickMissX 20) =
      { state := gateMiss2, category := some "trainee",
        detected_char := none, prompted := true } := by
    rw [readOnceTick_miss gateMiss1 (tickMissX 20) (by decide) (by decide) (Or.inl rfl),
      missOrReset_miss gateMiss1 (eventKeyOf (tickMissX 20)) (tickMissX 20) (by decide),
      hkey,
      show (tickMissX 20).now = (20 : ℚ) from rfl,
      show (tickMissX 20).promptResponse = none from rfl,
      missStep_fire_none gateMiss1 "trainee|EventX" 20 rfl (by decide)
        (by norm_num [PROMPT_COOLDOWN_SEC, gateMiss1])]
    rfl
  have hkey40 : eventKeyOf (tickMissX 40) = "trainee|EventX" := by decide
  have h40 : readOnceTick gateMiss2 (tickMissX 40) =
      { state := gateMiss3, category := some "trainee",
        detected_char := none, prompted := true } := by
    rw [readOnceTick_miss gateMiss2 (tickMissX 40) (by decide) (by decide) (Or.inl rfl),
      missOrReset_miss gateMiss2 (eventKeyOf (tickMissX 40)) (tickMissX 40) (by decide),
      hkey40,
      show (tickMissX 40).now = (40 : ℚ) from rfl,
      show (tickMissX 40).promptResponse = none from rfl,
      missStep_fire_none gateMiss2 "trainee|EventX" 40 rfl (by decide)
        (by norm_num [PROMPT_COOLDOWN_SEC, gateMiss2])]
    rfl
  have hp20 : (readOnceTick gateMiss1 (tickMissX 20)).prompted = true := by rw [h20]
  have hp40 : (readOnceTick (runGate (readOnceTick gateMiss1 (tickMissX 20)).state [])
      (tickMissX 40)).prompted = true := by
    rw [show runGate (readOnceTick gateMiss1 (tickMissX 20)).state [] =
        (readOnceTick gateMiss1 (tickMissX 20)).state from rfl, h20]
    exact h40 ▸ rfl
  exact ⟨C2_miss_gating_and_cooldown.1 gateMiss1 (tickMissX 20) hp20,
    C2_miss_gating_and_cooldown.2.1 initGate (tickMissX 0) (by decide) (by decide)
      (Or.inl rfl) (by decide) (by decide),
    C2_miss_gating_and_cooldown.2.2 gateMiss1 (tickMissX 20) [] (tickMissX 40)
      hp20 rfl hp40⟩

-- ---- claim C3 ----

/-- A state with live hit and miss streaks, for the reset scenarios. -/
def gateLive : GateState :=
  { current_candidate := some "Beta", hit_count := 1, miss_count := 1,
    last_key := "trainee|EventX", last_prompt_time := 0 }

/-- A tick whose category line contains neither "trainee" nor "support". -/
def tickUnknown : TickInput :=
  { lines := ["Mystery Screen", "Something"], detect := (none, 0), now := 0,
    promptResponse := none }

/-- Counterexample to C3: an unknown-category tick emits the hide result
but leaves the gate state untouched — candidate, hit streak and miss
streak are not reset to their initial values. -/
theorem C3_counterexample :
    (readOnceTick gateLive tickUnknown).category = none ∧
    readOnceTick gateLive tickUnknown =
      { state := gateLive, category := none, detected_char := none, prompted := false } ∧
    ¬ ((readOnceTick gateLive tickUnknown).state.current_candidate = none ∧
       (readOnceTick gateLive tickUnknown).state.hit_count = 0 ∧
       (readOnceTick gateLive tickUnknown).state.miss_count = 0) := by
  refine ⟨by decide, by decide, by decide⟩

/-- C3 amended: a support-category tick resets the gate state (candidate,
hit and miss streaks and last key) to its initial values; an
unknown-category tick emits the hide result but leaves the gate state
unchanged. -/
theorem C3_amended_reset_on_support_only :
    (∀ (st : GateState) (inp : TickInput),
      ¬ inp.lines.length < 2 → isTraineeCat inp = false → isSupportCat inp = true →
      readOnceTick st inp =
        { state := reset_portrait_gating st, category := some "support",
          detected_char := none, prompted := false }) ∧
    (∀ (st : GateState) (inp : TickInput),
      ¬ inp.lines.length < 2 → isTraineeCat inp = false → isSupportCat inp = false →
      readOnceTick st inp =
        { state := st, category := none, detected_char := none, prompted := false }) :=
  ⟨fun st inp hlen htr hsup => readOnceTick_support st inp hlen htr hsup,
   fun st inp hlen htr hsup => readOnceTick_unknown st inp hlen htr hsup⟩

/-- A support-category tick. -/
def tickSupport : TickInput :=
  { lines := ["Support Event", "Something"], detect := (none, 0), now := 0,
    promptResponse := none }

/-- Witness for the amended C3 at concrete inputs. -/
theorem C3_amended_reset_on_support_only_witness :
    readOnceTick gateLive tickSupport =
      { state := reset_portrait_gating gateLive, category := some "support",
        detected_char := none, prompted := false } ∧
    readOnceTick gateLive tickUnknown =
      { state := gateLive, category := none, detected_char := none, prompted := false } :=
  ⟨C3_amended_reset_on_support_only.1 gateLive tickSupport (by decide) (by decide) (by decide),
   C3_amended_reset_on_support_only.2 gateLive tickUnknown (by decide) (by decide) (by decide)⟩

-- ---- claim C4 ----

/-- A trainee-event miss tick for "EventX" at time 20 whose prompt is
answered with "Alpha". -/
def tickLabelX : TickInput :=
  { lines := ["Trainee Event", "EventX"], detect := (none, 0), now := 20,
    promptResponse := some "Alpha" }

/-- The state after the successful label of `tickLabelX` from
`gateMiss1`. -/
def gateLabeled : GateState :=
  { current_candidate := none, hit_count := 0, miss_count := 0,
    last_key := "trainee|EventX", last_prompt_time := 20 }

/-- Counterexample to C4: after a successful human label, candidate and
both streaks are reset, but `last_event_key` is NOT the empty string —
it keeps the event key of the tick. -/
theorem C4_counterexample :
    (readOnceTick gateMiss1 tickLabelX).prompted = true ∧
    (readOnceTick gateMiss1 tickLabelX).detected_char = some "Alpha" ∧
    (readOnceTick gateMiss1 tickLabelX).state.current_candidate = none ∧
    (readOnceTick gateMiss1 tickLabelX).state.hit_count = 0 ∧
    (readOnceTick gateMiss1 tickLabelX).state.miss_count = 0 ∧
    (readOnceTick gateMiss1 tickLabelX).state.last_key = "trainee|EventX" ∧
    (readOnceTick gateMiss1 tickLabelX).state.last_key ≠ "" := by
  have hkey : eventKeyOf tickLabelX = "trainee|EventX" := by decide
  have h : readOnceTick gateMiss1 tickLabelX =
      { state := gateLabeled, category := some "trainee",
        detected_char := some "Alpha", prompted := true } := by
    rw [readOnceTick_miss gateMiss1 tickLabelX (by decide) (by decide) (Or.inl rfl),
      missOrReset_miss gateMiss1 (eventKeyOf tickLabelX) tickLabelX (by decide),
      hkey,
      show tickLabelX.now = (20 : ℚ) from rfl,
      show tickLabelX.promptResponse = some "Alpha" from rfl,
      missStep_label gateMiss1 "trainee|EventX" 20 "Alpha" rfl (by decide)
        (by norm_num [PROMPT_COOLDOWN_SEC, gateMiss1]) (by decide)]
    rfl
  rw [h]
  refine ⟨rfl, rfl, rfl, rfl, rfl, rfl, by decide⟩

/-- C4 amended: after any successful label, the candidate and both
streaks reset (`current_candidate = none`, `hit_count = 0`,
`miss_count = 0`) and the prompt time is recorded, but `last_event_key`
retains the current tick's event key rather than resetting to the empty
string. -/
theorem C4_amended_label_resets_all_but_key :
    ∀ (st : GateState) (inp : TickInput) (sel : String),
      ¬ inp.lines.length < 2 → isTraineeCat inp = true →
      (inp.detect.1 = none ∨ inp.detect.1 = some "") →
      isTraineeEventLine inp = true →
      eventKeyOf inp = st.last_key →
      PORTRAIT_REQUIRE_MISSES ≤ st.miss_count + 1 →
      PROMPT_COOLDOWN_SEC < inp.now - st.last_prompt_time →
      inp.promptResponse = some sel → sel ≠ "" →
      readOnceTick st inp =
        { state :=
            { current_candidate := none, hit_count := 0, miss_count := 0,
              last_key := eventKeyOf inp, last_prompt_time := inp.now },
          category := some "trainee", detected_char := some sel, prompted := true } := by
  intro st inp sel hlen htr hdet htel hkey hm hcool hresp hsel
  rw [readOnceTick_miss st inp hlen htr hdet,
    missOrReset_miss st (eventKeyOf inp) inp htel, hresp, hkey,
    missStep_label st st.last_key inp.now sel rfl hm hcool hsel]

/-- Witness for the amended C4 at concrete inputs. -/
theorem C4_amended_label_resets_all_but_key_witness :
    readOnceTick gateMiss1 tickLabelX =
      { state := gateLabeled, category := some "trainee",
        detected_char := some "Alpha", prompted := true } := by
  have h := C4_amended_label_resets_all_but_key gateMiss1 tickLabelX "Alpha"
    (by decide) (by decide) (Or.inl rfl) (by decide) (by decide) (by decide)
    (by norm_num [PROMPT_COOLDOWN_SEC, gateMiss1, tickLabelX]) rfl (by decide)
  rw [h]
  rfl

-- ---- claim C5 ----

/-- The per-character index of the C5 scenarios: "Alpha" has one scoped
event, nobody else is known. -/
def byCharEx : String → Option EventMap :=
  fun n => if n = "Alpha" then some [("Alpine Picnic", [("Top", "Speed +10")])] else none

/-- The global catalogs of the C5 scenarios: one unrelated event in
every category. -/
def globEx : String → EventMap :=
  fun _ => [("Global Thing", [("Top", "x")])]

/-- Counterexample to C5: the confirmed name " Alpha " is absent from
the per-character index, yet the candidate set is Alpha's scoped map
(found through the whitespace-stripped second lookup), not the global
category map the claim requires. -/
theorem C5_counterexample :
    byCharEx " Alpha " = none ∧
    selectCandidates "trainee" (some " Alpha ") byCharEx globEx =
      [("Alpine Picnic", [("Top", "Speed +10")])] ∧
    selectCandidates "trainee" (some " Alpha ") byCharEx globEx ≠ globEx "trainee" := by
  refine ⟨by decide, by decide, by decide⟩

/-- C5 amended: for the trainee category the candidate set is the
character's scoped event map whenever the exact confirmed name — or the
name with surrounding whitespace stripped — has a non-empty entry in the
per-character index; it is the global trainee map when no character is
confirmed, the name is empty, or neither lookup finds an entry; any
other category uses its global map; and for event lines long enough to
match, `find_best_match` matches within exactly this candidate set. -/
theorem C5_amended_scoped_lookup :
    (∀ (bc : String → Option EventMap) (g : String → EventMap) (cn : String) (m : EventMap),
      cn ≠ "" → bc cn = some m → m ≠ [] →
      selectCandidates "trainee" (some cn) bc g = m) ∧
    (∀ (bc : String → Option EventMap) (g : String → EventMap) (cn : String) (m : EventMap),
      cn ≠ "" → (bc cn = none ∨ bc cn = some []) → bc (trimL cn) = some m →
      selectCandidates "trainee" (some cn) bc g = m) ∧
    (∀ (bc : String → Option EventMap) (g : String → EventMap),
      selectCandidates "trainee" none bc g = g "trainee") ∧
    (∀ (bc : String → Option EventMap) (g : String → EventMap),
      selectCandidates "trainee" (some "") bc g = g "trainee") ∧
    (∀ (bc : String → Option EventMap) (g : String → EventMap) (cn : String),
      cn ≠ "" → (bc cn = none ∨ bc cn = some []) → bc (trimL cn) = none →
      selectCandidates "trainee" (some cn) bc g = g "trainee") ∧
    (∀ (bc : String → Option EventMap) (g : String → EventMap) (cat : String)
      (cn : Option String), cat ≠ "trainee" → selectCandidates cat cn bc g = g cat) ∧
    (∀ (line cat : String) (cn : Option String) (conf : ℚ)
      (bc : String → Option EventMap) (g : String → EventMap)
      (ratio : String → String → ℚ), ¬ line.length < 4 →
      find_best_match line cat cn conf bc g ratio =
        matchAgainst line (selectCandidates cat cn bc g) conf ratio) := by
  refine ⟨?_, ?_, ?_, ?_, ?_, ?_, ?_⟩
  · intro bc g cn m hcn hbc hm
    simp [selectCandidates, hcn, hbc, hm]
  · intro bc g cn m hcn hbc hstrip
    rcases hbc with h | h <;> simp [selectCandidates, hcn, h, hstrip]
  · intro bc g
    rfl
  · intro bc g
    simp [selectCandidates]
  · intro bc g cn hcn hbc hstrip
    rcases hbc with h | h <;> simp [selectCandidates, hcn, h, hstrip]
  · intro bc g cat cn hcat
    simp [selectCandidates, hcat]
  · intro line cat cn conf bc g ratio hlen
    simp [find_best_match, hlen]

/-- A similarity function for the concrete instantiation. -/
def exRatio1 : String → String → ℚ :=
  fun _ _ => 1

/-- Witness for the amended C5 at concrete inputs: exact-name hit,
stripped-name hit, absent-name global fallback, and the tie-in between
`find_best_match` and the selected candidate set. -/
theorem C5_amended_scoped_lookup_witness :
    selectCandidates "trainee" (some "Alpha") byCharEx globEx =
      [("Alpine Picnic", [("Top", "Speed +10")])] ∧
    selectCandidates "trainee" (some " Alpha ") byCharEx globEx =
      [("Alpine Picnic", [("Top", "Speed +10")])] ∧
    selectCandidates "trainee" (some "Nobody") byCharEx globEx = globEx "trainee" ∧
    find_best_match "Alpine Picnic" "trainee" (some "Alpha") 0.7 byCharEx globEx exRatio1 =
      matchAgainst "Alpine Picnic"
        (selectCandidates "trainee" (some "Alpha") byCharEx globEx) 0.7 exRatio1 :=
  ⟨C5_amended_scoped_lookup.1 byCharEx globEx "Alpha"
      [("Alpine Picnic", [("Top", "Speed +10")])] (by decide) (by decide) (by decide),
   C5_amended_scoped_lookup.2.1 byCharEx globEx " Alpha "
      [("Alpine Picnic", [("Top", "Speed +10")])] (by decide) (Or.inl (by decide)) (by decide),
   C5_amended_scoped_lookup.2.2.2.2.1 byCharEx globEx "Nobody" (by decide)
      (Or.inl (by decide)) (by decide),
   C5_amended_scoped_lookup.2.2.2.2.2.2 "Alpine Picnic" "trainee" (some "Alpha") 0.7
      byCharEx globEx exRatio1 (by decide)⟩

-- ---- claim C6 ----

theorem matchAgainst_some_cutoff (line : String) (m : EventMap) (conf : ℚ)
    (ratio : String → String → ℚ) (name : String) (opts : Option OptionMap)
    (h : matchAgainst line m conf ratio = (some name, opts)) :
    (if strContains (strLower line) "inspiration" ||
        strContains (strLower line) "summer camp" then
      max conf (0.95 : ℚ)
    else conf) ≤ ratio line name := by
  unfold matchAgainst at h
  by_cases hm : m = []
  · rw [if_pos hm] at h
    simp at h
  · rw [if_neg hm] at h
    dsimp only at h
    cases hg : get_close_matches1 line (m.map Prod.fst)
        (if strContains (strLower line) "inspiration" ||
            strContains (strLower line) "summer camp" then
          max conf (0.95 : ℚ)
        else conf) ratio with
    | none =>
      rw [hg] at h
      simp at h
    | some nm =>
      rw [hg] at h
      have hnm : nm = name := by
        simpa using congrArg Prod.fst h
      subst hnm
      exact (gcm_cutoff line (m.map Prod.fst) _ ratio nm hg).1

/-- C6: when the event line contains an ambiguous phrase ("inspiration"
or "summer camp", case-insensitive), any candidate `find_best_match`
selects has similarity at least 0.95 to the event line, regardless of
the caller's base confidence. -/
theorem C6_ambiguous_requires_high_similarity :
    ∀ (line cat : String) (cn : Option String) (conf : ℚ)
      (bc : String → Option EventMap) (g : String → EventMap)
      (ratio : String → String → ℚ) (name : String) (opts : Option OptionMap),
      (strContains (strLower line) "inspiration" = true ∨
        strContains (strLower line) "summer camp" = true) →
      find_best_match line cat cn conf bc g ratio = (some name, opts) →
      (0.95 : ℚ) ≤ ratio line name := by
  intro line cat cn conf bc g ratio name opts hamb hfind
  by_cases hlen : line.length < 4
  · rw [find_best_match, if_pos hlen] at hfind
    simp at hfind
  · rw [find_best_match, if_neg hlen] at hfind
    have hcut := matchAgainst_some_cutoff line (selectCandidates cat cn bc g)
      conf ratio name opts hfind
    have hambB : (strContains (strLower line) "inspiration" ||
        strContains (strLower line) "summer camp") = true := by
      rcases hamb with h | h <;> simp [h]
    rw [if_pos hambB] at hcut
    exact le_trans (le_max_right conf (0.95 : ℚ)) hcut

/-- The global catalog of the C6 instantiation: one ambiguous-titled
event per category. -/
def globC6 : String → EventMap :=
  fun _ => [("Inspiration Day", [("Top", "+20 Speed")])]

/-- Witness for C6: a concrete ambiguous-line match, whose selected
candidate therefore scores at least 0.95. -/
theorem C6_ambiguous_requires_high_similarity_witness :
    find_best_match "Inspiration Day" "support" none 0.7 byCharEx globC6 exRatio1 =
      (some "Inspiration Day", some [("Top", "+20 Speed")]) ∧
    (0.95 : ℚ) ≤ exRatio1 "Inspiration Day" "Inspiration Day" := by
  have hlen : ¬ ("Inspiration Day".length < 4) := by decide
  have hambg : (strContains (strLower "Inspiration Day") "inspiration" ||
      strContains (strLower "Inspiration Day") "summer camp") = true := by decide
  have hmax : max (0.7 : ℚ) 0.95 = 0.95 := by norm_num
  have hd : (decide ((0.95 : ℚ) ≤ (1 : ℚ))) = true := by
    rw [decide_eq_true_eq]
    norm_num
  have hfind : find_best_match "Inspiration Day" "support" none 0.7 byCharEx globC6 exRatio1 =
      (some "Inspiration Day", some [("Top", "+20 Speed")]) := by
    norm_num [find_best_match, matchAgainst, selectCandidates, get_close_matches1,
      pickBetter, globC6, exRatio1, hlen, hambg, hmax, hd, List.filter, List.lookup]
  exact ⟨hfind,
    C6_ambiguous_requires_high_similarity "Inspiration Day" "support" none 0.7 byCharEx
      globC6 exRatio1 "Inspiration Day" (some [("Top", "+20 Speed")])
      (Or.inl (by decide)) hfind⟩

-- ---- claim C7 ----

/-- C7: an event line that is empty or shorter than 4 characters never
matches — `find_best_match` returns `(none, none)` for every category,
character, confidence and catalog. -/
theorem C7_short_line_no_match :
    ∀ (line cat : String) (cn : Option String) (conf : ℚ)
      (bc : String → Option EventMap) (g : String → EventMap)
      (ratio : String → String → ℚ),
      line.length < 4 →
      find_best_match line cat cn conf bc g ratio = (none, none) := by
  intro line cat cn conf bc g ratio h
  simp [find_best_match, h]

/-- Witness for C7: a three-character line and the empty line both fail
to match against a catalog that contains them verbatim. -/
theorem C7_short_line_no_match_witness :
    ("abc".length < 4 ∧
      find_best_match "abc" "trainee" (some "Alpha") 0.1 byCharEx globEx exRatio1 =
        (none, none)) ∧
    ("".length < 4 ∧
      find_best_match "" "support" none 0.1 byCharEx globEx exRatio1 = (none, none)) :=
  ⟨⟨by decide, C7_short_line_no_match "abc" "trainee" (some "Alpha") 0.1 byCharEx globEx
      exRatio1 (by decide)⟩,
   ⟨by decide, C7_short_line_no_match "" "support" none 0.1 byCharEx globEx
      exRatio1 (by decide)⟩⟩

-- ---- claim C8 ----

/-- C8: `load_events` turns every read failure and every parse failure
of the category file into the empty map, and in general returns either
the parsed data or the empty map — no other outcome (the `try`/`except`
never lets an exception reach the caller). -/
theorem C8_load_events_failure_empty :
    ∀ (category base_dir : String) (fs : String → FileOutcome) (msg : String),
      (fs (base_dir ++ "/" ++ category ++ "_events.json") = FileOutcome.ioError msg →
        load_events category base_dir fs = []) ∧
      (fs (base_dir ++ "/" ++ category ++ "_events.json") = FileOutcome.parseError msg →
        load_events category base_dir fs = []) ∧
      (load_events category base_dir fs = [] ∨
        ∃ d, fs (base_dir ++ "/" ++ category ++ "_events.json") = FileOutcome.ok d ∧
          load_events category base_dir fs = d) := by
  intro category base_dir fs msg
  refine ⟨?_, ?_, ?_⟩
  · intro h
    simp [load_events, h]
  · intro h
    simp [load_events, h]
  · cases hf : fs (base_dir ++ "/" ++ category ++ "_events.json") with
    | ok d => exact Or.inr ⟨d, rfl, by simp [load_events, hf]⟩
    | ioError m => exact Or.inl (by simp [load_events, hf])
    | parseError m => exact Or.inl (by simp [load_events, hf])

/-- Witness for C8: a missing file and a malformed file both load as the
empty map. -/
theorem C8_load_events_failure_empty_witness :
    load_events "trainee" "events" (fun _ => FileOutcome.ioError "missing") = [] ∧
    load_events "support" "events" (fun _ => FileOutcome.parseError "bad json") = [] :=
  ⟨(C8_load_events_failure_empty "trainee" "events"
      (fun _ => FileOutcome.ioError "missing") "missing").1 rfl,
   (C8_load_events_failure_empty "support" "events"
      (fun _ => FileOutcome.parseError "bad json") "bad json").2.1 rfl⟩

-- ---- claim C9 ----

/-- C9: called with an empty template cache, `detect_from_roi` attempts
exactly one reload from disk; if the cache is still empty afterwards it
returns `(none, 0.0)` without scoring any template; a non-empty cache is
never reloaded. -/
theorem C9_cold_start_single_reload :
    ∀ (disk : List String) (score : String → ℚ) (min_score : ℚ),
      (detect_from_roi [] disk score min_score).reloads = 1 ∧
      (disk = [] →
        detect_from_roi [] disk score min_score =
          { name := none, score := 0, reloads := 1, scored := 0 }) ∧
      (∀ cache : List String, cache ≠ [] →
        (detect_from_roi cache disk score min_score).reloads = 0) := by
  intro disk score min_score
  refine ⟨?_, ?_, ?_⟩
  · by_cases hd : disk = []
    · simp [detect_from_roi, hd]
    · simp only [detect_from_roi, reduceIte]
      rw [if_neg hd]
      split <;> rfl
  · intro hd
    subst hd
    simp [detect_from_roi]
  · intro cache hc
    simp only [detect_from_roi]
    rw [if_neg hc, if_neg hc]
    split <;> rfl

/-- Witness for C9: empty cache and empty disk give one reload and the
empty result; a one-template cache is not reloaded. -/
theorem C9_cold_start_single_reload_witness :
    (detect_from_roi [] [] (fun _ => 0) 0.7).reloads = 1 ∧
    detect_from_roi [] [] (fun _ => 0) 0.7 =
      { name := none, score := 0, reloads := 1, scored := 0 } ∧
    (detect_from_roi ["Alpha"] [] (fun _ => 0) 0.7).reloads = 0 :=
  ⟨(C9_cold_start_single_reload [] (fun _ => 0) 0.7).1,
   (C9_cold_start_single_reload [] (fun _ => 0) 0.7).2.1 rfl,
   (C9_cold_start_single_reload [] (fun _ => 0) 0.7).2.2 ["Alpha"] (by decide)⟩

-- ---- claim C10 ----

/-- C10: when the sanitized name is empty, `save_portrait` returns
`None` and leaves the template cache and the disk untouched; otherwise
the on-disk filename stem and the cache key are both exactly the
sanitized name. -/
theorem C10_save_portrait_sanitization :
    ∀ (α : Type) (name : String) (img : α) (portrait_dir : String)
      (gray : α → α) (cache disk : List (String × α)),
      (sanitizeName name = "" →
        save_portrait name img portrait_dir gray cache disk =
          { path := none, cache := cache, disk := disk }) ∧
      (sanitizeName name ≠ "" →
        save_portrait name img portrait_dir gray cache disk =
          { path := some (portrait_dir ++ "/" ++ sanitizeName name ++ ".png"),
            cache := (sanitizeName name, gray img) :: cache,
            disk := (portrait_dir ++ "/" ++ sanitizeName name ++ ".png", img) :: disk }) := by
  intro α name img portrait_dir gray cache disk
  constructor
  · intro h
    simp [save_portrait, h]
  · intro h
    simp [save_portrait, h]

/-- Witness for C10: a name that sanitizes to nothing changes neither
cache nor disk; a name with forbidden characters and padding is saved
under exactly its sanitized form. -/
theorem C10_save_portrait_sanitization_witness :
    save_portrait " ?* " (0 : Nat) "assets/portraits" id [] [] =
      { path := none, cache := [], disk := [] } ∧
    save_portrait " Al:pha " (0 : Nat) "assets/portraits" id [] [] =
      { path := some "assets/portraits/Alpha.png", cache := [("Alpha", 0)],
        disk := [("assets/portraits/Alpha.png", 0)] } := by
  have h1 := (C10_save_portrait_sanitization Nat " ?* " 0 "assets/portraits"
    id [] []).1 (by decide)
  have h2 := (C10_save_portrait_sanitization Nat " Al:pha " 0 "assets/portraits"
    id [] []).2 (by decide)
  exact ⟨h1, h2.trans (by decide)⟩

end UmaNakama
